import Mathlib

/-!
Shallow embedding of the weather-mcp repository (an Express-based JSON-RPC
weather relay around the Weatherstack API) and proofs about its behaviour.

The embedding follows `src/unnamed/part_000` (the JSON-RPC deployment
variant, which the spec treats as primary) for the `/mcp` request handler,
and the `fetchWeatherData` / `getWeatherForCity` functions shared by both
variants.  JavaScript dynamic values are modelled by the inductive `JVal`
(JSON numbers are modelled as integers; no claim depends on fractional
numeric values), `undefined` by `Option.none`, thrown exceptions by
`Except.error`, and the outbound HTTP transport by an explicit function
parameter together with a log of the URLs that were actually requested.
-/

namespace WeatherMcp

/-- A JavaScript/JSON value, as far as the handler inspects one. -/
inductive JVal where
  | jnull
  | jbool (b : Bool)
  | jnum (n : Int)
  | jstr (s : String)
  | jarr (elems : List JVal)
  | jobj (fields : List (String × JVal))

/-- JavaScript truthiness of a value (`!v` is its negation). -/
def truthyV : JVal → Bool
  | JVal.jnull => false
  | JVal.jbool b => b
  | JVal.jnum n => decide (n ≠ 0)
  | JVal.jstr s => decide (s ≠ "")
  | JVal.jarr _ => true
  | JVal.jobj _ => true

/-- Truthiness of a possibly-`undefined` value (`none` models `undefined`). -/
def truthy : Option JVal → Bool
  | none => false
  | some v => truthyV v

/-- Property lookup in an object literal; later bindings win, as after
`JSON.parse`. Returns `none` for an absent property (JS `undefined`). -/
def lookupField : List (String × JVal) → String → Option JVal
  | [], _ => none
  | (k, v) :: fs, p =>
    match lookupField fs p with
    | some w => some w
    | none => if k = p then some v else none

/-- JS strict equality `v === s` against a string literal: only a string
with the same contents compares equal. -/
def strictEqStr (v : JVal) (s : String) : Bool :=
  match v with
  | JVal.jstr t => decide (t = s)
  | _ => false

/-- `v === s` where `v` may be `undefined`. -/
def strictEqStrOpt : Option JVal → String → Bool
  | some v, s => strictEqStr v s
  | none, _ => false

/-- JS property access `v.p` where `v` may be `undefined`: a `TypeError`
(`Except.error`) on `undefined` or `null`, the looked-up field on an
object, and `undefined` on any other value (primitives and arrays have
none of the properties this program reads). -/
def jsGetProp (v : Option JVal) (p : String) : Except Unit (Option JVal) :=
  match v with
  | none => Except.error ()
  | some JVal.jnull => Except.error ()
  | some (JVal.jobj fs) => Except.ok (lookupField fs p)
  | some _ => Except.ok none

mutual

/-- JS `String(v)` coercion as used by template literals and `join`. -/
def jsStringOfJVal : JVal → String
  | JVal.jnull => "null"
  | JVal.jbool b => cond b "true" "false"
  | JVal.jnum n => toString n
  | JVal.jstr s => s
  | JVal.jarr xs => jsJoinList "," xs
  | JVal.jobj _ => "[object Object]"

/-- `Array.prototype.join(sep)`: elements are stringified, except that
`null` (and `undefined`) elements become the empty string. -/
def jsJoinList (sep : String) : List JVal → String
  | [] => ""
  | [JVal.jnull] => ""
  | [v] => jsStringOfJVal v
  | JVal.jnull :: vs => sep ++ jsJoinList sep vs
  | v :: vs => jsStringOfJVal v ++ sep ++ jsJoinList sep vs

end

/-- The JS call `v.join(sep)` on a possibly-`undefined` value: a `TypeError`
unless `v` is an array (`undefined`/`null` have no properties; on other
non-arrays `join` is not a function). -/
def jsJoinCall (sep : String) (v : Option JVal) : Except Unit String :=
  match v with
  | some (JVal.jarr xs) => Except.ok (jsJoinList sep xs)
  | _ => Except.error ()

/-- The JS expression `v[0]` on a possibly-`undefined` value: a `TypeError`
on `undefined`/`null`; the first element (or `undefined`) on an array; the
first character on a string; the `"0"` property on an object; `undefined`
on the remaining primitives. -/
def jsIndexZero (v : Option JVal) : Except Unit (Option JVal) :=
  match v with
  | none => Except.error ()
  | some JVal.jnull => Except.error ()
  | some (JVal.jarr xs) => Except.ok xs.head?
  | some (JVal.jstr s) => Except.ok (s.data.head?.map (fun c => JVal.jstr (String.mk [c])))
  | some (JVal.jobj fs) => Except.ok (lookupField fs "0")
  | some _ => Except.ok none

/-- The whitespace class trimmed by JS `String.prototype.trim`:
ASCII whitespace, NBSP, the Unicode space separators, line/paragraph
separators, and the BOM. -/
def isJsWhitespace (c : Char) : Bool :=
  decide (c.toNat = 32 ∨ c.toNat = 9 ∨ c.toNat = 10 ∨ c.toNat = 11 ∨ c.toNat = 12 ∨
    c.toNat = 13 ∨ c.toNat = 160 ∨ c.toNat = 5760 ∨
    (8192 ≤ c.toNat ∧ c.toNat ≤ 8202) ∨ c.toNat = 8232 ∨ c.toNat = 8233 ∨
    c.toNat = 8239 ∨ c.toNat = 8287 ∨ c.toNat = 12288 ∨ c.toNat = 65279)

/-- Drop JS whitespace from both ends of a character list. -/
def trimList (l : List Char) : List Char :=
  ((l.dropWhile isJsWhitespace).reverse.dropWhile isJsWhitespace).reverse

/-- JS `String.prototype.trim`. -/
def jsTrim (s : String) : String :=
  String.mk (trimList s.data)

/-- The UTF-8 bytes of a code point (used by `encodeURIComponent`). -/
def utf8Bytes (n : Nat) : List Nat :=
  if n < 128 then [n]
  else if n < 2048 then [192 + n / 64, 128 + n % 64]
  else if n < 65536 then [224 + n / 4096, 128 + (n / 64) % 64, 128 + n % 64]
  else [240 + n / 262144, 128 + (n / 4096) % 64, 128 + (n / 64) % 64, 128 + n % 64]

/-- Uppercase hexadecimal digit, as produced by `encodeURIComponent`. -/
def hexDigit (n : Nat) : Char :=
  if n < 10 then Char.ofNat (48 + n) else Char.ofNat (55 + n)

/-- The characters `encodeURIComponent` leaves unescaped:
`A-Z a-z 0-9 - _ . ! ~ * apostrophe ( )`. -/
def isUnreservedChar (c : Char) : Bool :=
  decide ((65 ≤ c.toNat ∧ c.toNat ≤ 90) ∨ (97 ≤ c.toNat ∧ c.toNat ≤ 122) ∨
    (48 ≤ c.toNat ∧ c.toNat ≤ 57) ∨ c.toNat = 45 ∨ c.toNat = 95 ∨ c.toNat = 46 ∨
    c.toNat = 33 ∨ c.toNat = 126 ∨ c.toNat = 42 ∨ c.toNat = 39 ∨ c.toNat = 40 ∨
    c.toNat = 41)

/-- Percent-encode one character from its UTF-8 bytes. -/
def percentEncodeChar (c : Char) : List Char :=
  (utf8Bytes c.toNat).foldr
    (fun b acc => '%' :: hexDigit (b / 16) :: hexDigit (b % 16) :: acc) []

/-- JS `encodeURIComponent`. -/
def encodeURIComponent (s : String) : String :=
  String.mk (s.data.foldr
    (fun c acc => (if isUnreservedChar c then [c] else percentEncodeChar c) ++ acc) [])

/-! ## Provider Client (`fetchWeatherData`) -/

/-- `const WEATHERSTACK_API_URL = require... `: the provider endpoint. -/
def WEATHERSTACK_API_URL : String := "http://api.weatherstack.com/current"

/-- The outcome of the outbound `fetch` of one URL, as the code observes it:
the fetch promise rejecting, a non-2xx response (`!response.ok`), the JSON
body failing to parse (`response.json()` rejecting), or a parsed JSON body. -/
inductive TransportOutcome where
  | netFail
  | httpFail
  | jsonFail
  | body (data : JVal)

/-- The distinct failure modes of `fetchWeatherData`, one per `throw` site:
the city check, the `isValidApiKey` check, a rejected `fetch` or
`response.json()` call, a non-ok HTTP status, the three credential-related
provider error codes, any other provider-reported error, and the
`TypeError` raised by reading `.error` off a `null` body. -/
inductive FetchError where
  | invalidInput
  | credentialMissing
  | transportFailed
  | statusNotOk
  | providerKeyError
  | providerApiError
  | nullBodyFault
deriving DecidableEq

/-- Is `data.error.code` strictly equal to 101, 102 or 103? (`e.code` on a
truthy non-object is `undefined`, which matches none of them.) -/
def isKeyErrorCode (c : Option JVal) : Bool :=
  match c with
  | some (JVal.jnum n) => decide (n = 101 ∨ n = 102 ∨ n = 103)
  | _ => false

/-- `e.p` on a value already known to be truthy (so never `null`). -/
def jsFieldOpt (v : JVal) (p : String) : Option JVal :=
  match v with
  | JVal.jobj fs => lookupField fs p
  | _ => none

/-- The `if (data.error) ...` classification of a parsed provider body:
`null` bodies fault on the `.error` access; a truthy `error` field is
classified by its `code` (101/102/103 are credential errors); otherwise
the body is returned as the weather data. -/
def classifyBody (data : JVal) : Except FetchError JVal :=
  match data with
  | JVal.jnull => Except.error FetchError.nullBodyFault
  | JVal.jobj fs =>
    match lookupField fs "error" with
    | none => Except.ok (JVal.jobj fs)
    | some e =>
      if truthyV e then
        if isKeyErrorCode (jsFieldOpt e "code") then Except.error FetchError.providerKeyError
        else Except.error FetchError.providerApiError
      else Except.ok (JVal.jobj fs)
  | other => Except.ok other

/-- The URL `fetchWeatherData` builds:
`WEATHERSTACK_API_URL?access_key=KEY&query=encodeURIComponent(city)`. -/
def mkApiUrl (key trimmedCity : String) : String :=
  WEATHERSTACK_API_URL ++ "?access_key=" ++ key ++ "&query=" ++ encodeURIComponent trimmedCity

/-- `fetchWeatherData(city)` from both repository variants, with the
configured `WEATHERSTACK_API_KEY` and the network passed explicitly.
The second component logs the URLs that were actually fetched, so an empty
log means no outbound network call was made.  The order of the steps is
the code order: the falsy-city check, then `isValidApiKey`, then
`city.trim()` and URL construction, then the network call and the
classification of its result.  (The `try`/`catch` around the fetch in the
JSON-RPC variant only logs and rethrows, so it does not alter the result.) -/
def fetchWeatherData (key city : String) (transport : String → TransportOutcome) :
    Except FetchError JVal × List String :=
  if city = "" then (Except.error FetchError.invalidInput, [])
  else if key = "" then (Except.error FetchError.credentialMissing, [])
  else
    match transport (mkApiUrl key (jsTrim city)) with
    | TransportOutcome.netFail =>
      (Except.error FetchError.transportFailed, [mkApiUrl key (jsTrim city)])
    | TransportOutcome.jsonFail =>
      (Except.error FetchError.transportFailed, [mkApiUrl key (jsTrim city)])
    | TransportOutcome.httpFail =>
      (Except.error FetchError.statusNotOk, [mkApiUrl key (jsTrim city)])
    | TransportOutcome.body data => (classifyBody data, [mkApiUrl key (jsTrim city)])

/-! ## Library surface: `getWeatherForCity` -/

/-- Result of the simplified lookup: either the raw provider data or the
`{status, message}` sentinel object. -/
inductive LookupResult where
  | weatherData (d : JVal)
  | statusMessage (status message : String)

/-- `getWeatherForCity(city)`: `try { return await fetchWeatherData(city) }
catch { return {status: "not available", message: ...} }`. -/
def getWeatherForCity (key city : String) (transport : String → TransportOutcome) :
    LookupResult :=
  match (fetchWeatherData key city transport).1 with
  | Except.ok d => LookupResult.weatherData d
  | Except.error _ =>
    LookupResult.statusMessage "not available" "Weather data is currently not available"

/-! ## Request Handler (`app.all` POST branch, JSON-RPC variant) -/

/-- JS `split(sep)` on a character list: splits at every occurrence of the
separator, producing one (possibly empty) piece per gap. -/
def jsSplit (sep : Char) : List Char → List (List Char)
  | [] => [[]]
  | c :: cs =>
    if c = sep then [] :: jsSplit sep cs
    else (jsSplit sep cs).modifyHead (fun h => c :: h)

/-- Method resolution on a string method name:
`if (method.includes(separator)) [tool, operation] = method.split(separator)`
takes the FIRST TWO pieces of the full split (`includes` holds exactly when
the split has at least two pieces); otherwise the tool defaults to
`"weather"` and the whole method name is the operation. -/
def parseMethod (m : String) : String × String :=
  match jsSplit '.' m.data with
  | tool :: op :: _ => (String.mk tool, String.mk op)
  | _ => ("weather", m)

/-- Split a character list at the FIRST occurrence of the separator, if any.
Used only to state what the spec says method resolution does, for
comparison with `parseMethod`, which is what the code does. -/
def splitFirst (sep : Char) : List Char → Option (List Char × List Char)
  | [] => none
  | c :: cs =>
    if c = sep then some ([], cs)
    else (splitFirst sep cs).map (fun p => (c :: p.1, p.2))

/-- Modelled from the spec: "if the method contains a separator character,
split on the first occurrence into tool and operation; otherwise default
tool to weather and treat the whole method name as the operation". -/
def parseMethodSpec (m : String) : String × String :=
  match splitFirst '.' m.data with
  | some (t, op) => (String.mk t, String.mk op)
  | none => ("weather", m)

/-- The inbound POST body `{jsonrpc, id, method, params}`; a missing
attribute destructures to `undefined`, i.e. `none`. -/
structure RpcRequest where
  jsonrpc : Option JVal
  id : Option JVal
  method : Option JVal
  params : Option JVal

/-- `id || null`: the correlation identifier echoed in responses. -/
def idOrNull : Option JVal → JVal
  | some v => if truthyV v then v else JVal.jnull
  | none => JVal.jnull

/-- `method.includes(separator)` on an array: element-wise strict comparison
with the one-character separator string. -/
def jsIncludesDot (xs : List JVal) : Bool :=
  xs.any (fun v => strictEqStr v ".")

/-- Resolve a truthy `method` value into `(tool, operation)`.  On a string
this is `parseMethod`.  On an array, `includes` exists and compares
elementwise, after which `split` (absent on arrays) faults if a separator
was found, and otherwise the whole array becomes the operation.  On every
other truthy value `.includes` is not a function, so a `TypeError` is
raised (propagating to the outer catch). -/
def resolveMethod (m : Option JVal) : Except Unit (JVal × JVal) :=
  match m with
  | some (JVal.jstr s) =>
    let p := parseMethod s
    Except.ok (JVal.jstr p.1, JVal.jstr p.2)
  | some (JVal.jarr xs) =>
    if jsIncludesDot xs then Except.error ()
    else Except.ok (JVal.jstr "weather", JVal.jarr xs)
  | _ => Except.error ()

/-- Extraction of `city` from `params`: an object (arrays included, `null`
excluded by the explicit check) contributes its `city` attribute, a string
is used directly, and anything else leaves `city` undefined. -/
def extractCity : Option JVal → Option JVal
  | some (JVal.jobj fs) => lookupField fs "city"
  | some (JVal.jarr _) => none
  | some (JVal.jstr s) => some (JVal.jstr s)
  | _ => none

/-- The nested `current` object of the normalized response.  Field values
are provider-supplied JSON values (possibly `undefined`), except the fixed
unit string and the joined description string. -/
structure NormalizedCurrent where
  temperature : Option JVal
  temperatureUnit : String
  weather : String
  weatherIcon : Option JVal
  windSpeed : Option JVal
  windDirection : Option JVal
  humidity : Option JVal
  feelsLike : Option JVal
  uvIndex : Option JVal
  visibility : Option JVal
  precipitation : Option JVal
  cloudCover : Option JVal
  pressure : Option JVal

/-- The normalized weather payload returned in a success envelope. -/
structure NormalizedPayload where
  city : Option JVal
  country : Option JVal
  region : Option JVal
  localtime : Option JVal
  current : NormalizedCurrent

/-- Building the normalized result object from the provider payload, one
property access per source line, in source order.  Any `TypeError` along
the way (for example `data.location` being `undefined`) is an
`Except.error`, caught by the inner catch of the handler. -/
def normalizeJson (data : JVal) : Except Unit NormalizedPayload := do
  let city ← jsGetProp (← jsGetProp (some data) "location") "name"
  let country ← jsGetProp (← jsGetProp (some data) "location") "country"
  let region ← jsGetProp (← jsGetProp (some data) "location") "region"
  let localtime ← jsGetProp (← jsGetProp (some data) "location") "localtime"
  let temperature ← jsGetProp (← jsGetProp (some data) "current") "temperature"
  let weather ← jsJoinCall ", " (← jsGetProp (← jsGetProp (some data) "current") "weather_descriptions")
  let weatherIcon ← jsIndexZero (← jsGetProp (← jsGetProp (some data) "current") "weather_icons")
  let windSpeed ← jsGetProp (← jsGetProp (some data) "current") "wind_speed"
  let windDirection ← jsGetProp (← jsGetProp (some data) "current") "wind_dir"
  let humidity ← jsGetProp (← jsGetProp (some data) "current") "humidity"
  let feelsLike ← jsGetProp (← jsGetProp (some data) "current") "feelslike"
  let uvIndex ← jsGetProp (← jsGetProp (some data) "current") "uv_index"
  let visibility ← jsGetProp (← jsGetProp (some data) "current") "visibility"
  let precipitation ← jsGetProp (← jsGetProp (some data) "current") "precip"
  let cloudCover ← jsGetProp (← jsGetProp (some data) "current") "cloudcover"
  let pressure ← jsGetProp (← jsGetProp (some data) "current") "pressure"
  return ⟨city, country, region, localtime,
    ⟨temperature, "C", weather, weatherIcon, windSpeed, windDirection, humidity,
      feelsLike, uvIndex, visibility, precipitation, cloudCover, pressure⟩⟩

/-- The payload of a JSON-RPC success envelope: either a normalized weather
object or the `{status, message}` sentinel produced by the inner catch. -/
inductive ResultPayload where
  | weatherResult (w : NormalizedPayload)
  | statusMessage (status message : String)

/-- The responses the POST handler can produce: a success envelope
`{jsonrpc, id, result}`, a structured rejection `{jsonrpc, id, error:
{code, message, data}}`, or the id-less responses sent with an explicit
HTTP status (the 405 branch and the outer catch). -/
inductive RpcResponse where
  | ok (id : JVal) (result : ResultPayload)
  | err (id : JVal) (code : Int) (message data : String)
  | errNoId (status : Nat) (code : Int) (message data : String)

/-- The POST branch of `app.all` up to, but not including, the outer catch:
JSON-RPC envelope validation, method resolution (whose `TypeError`s
propagate as `Except.error`), tool and operation dispatch, and the
`currentWeather` block with its inner catch.  `provider` is the awaited
`fetchWeatherData(city)` call: `some data` if the promise resolves and
`none` if it rejects for any reason. -/
def handleCore (provider : JVal → Option JVal) (body : RpcRequest) :
    Except Unit RpcResponse :=
  let rid := idOrNull body.id
  if !truthy body.jsonrpc || !strictEqStrOpt body.jsonrpc "2.0" then
    Except.ok (RpcResponse.err rid (-32600) "Invalid Request"
      "Request must follow JSON-RPC 2.0 specification")
  else if !truthy body.method then
    Except.ok (RpcResponse.err rid (-32600) "Invalid Request" "Method is required")
  else
    match resolveMethod body.method with
    | Except.error e => Except.error e
    | Except.ok (tool, operation) =>
      if !strictEqStr tool "weather" then
        Except.ok (RpcResponse.err rid (-32601) "Method not found"
          ("Unsupported tool: " ++ jsStringOfJVal tool ++
            ". Currently only \x27weather\x27 tool is supported."))
      else if strictEqStr operation "currentWeather" then
        match extractCity body.params with
        | none =>
          Except.ok (RpcResponse.err rid (-32602) "Invalid params" "City parameter is required")
        | some cv =>
          if !truthyV cv then
            Except.ok (RpcResponse.err rid (-32602) "Invalid params" "City parameter is required")
          else
            match provider cv with
            | none =>
              Except.ok (RpcResponse.ok rid
                (ResultPayload.statusMessage "not available"
                  "Weather data is currently not available"))
            | some data =>
              match normalizeJson data with
              | Except.error _ =>
                Except.ok (RpcResponse.ok rid
                  (ResultPayload.statusMessage "not available"
                    "Weather data is currently not available"))
              | Except.ok w => Except.ok (RpcResponse.ok rid (ResultPayload.weatherResult w))
      else
        Except.ok (RpcResponse.err rid (-32601) "Method not found"
          ("Unsupported operation: " ++ jsStringOfJVal operation))

/-- The complete POST handler: `handleCore` wrapped in the outer catch,
which converts any uncaught fault into the id-less HTTP 500 response with
code -32603. -/
def handlePost (provider : JVal → Option JVal) (body : RpcRequest) : RpcResponse :=
  match handleCore provider body with
  | Except.ok r => r
  | Except.error _ =>
    RpcResponse.errNoId 500 (-32603) "Internal error" "An unexpected error occurred"

/-- Comma-style joining of a list of strings; used to state what
"comma-joined" means independently of the JS `join` model. -/
def joinStrings (sep : String) : List String → String
  | [] => ""
  | [d] => d
  | d :: ds => d ++ sep ++ joinStrings sep ds

/-- The segment of a character list before its first separator (the whole
list when no separator occurs); used to state what the code keeps as the
operation. -/
def firstSegment (sep : Char) (l : List Char) : List Char :=
  match splitFirst sep l with
  | none => l
  | some p => p.1

/-! ## Supporting lemmas -/

lemma data_nil_iff (s : String) : s.data = [] ↔ s = "" := by
  constructor
  · intro h
    exact String.ext (by rw [h])
  · intro h
    rw [h]

lemma dropWhile_append_all {p : Char → Bool} (w l : List Char)
    (hw : ∀ c ∈ w, p c = true) : (w ++ l).dropWhile p = l.dropWhile p := by
  induction w with
  | nil => rfl
  | cons c cs ih =>
    simp only [List.cons_append, List.dropWhile_cons, hw c (by simp), if_true]
    exact ih (fun c hc => hw c (by simp [hc]))

lemma dropWhile_append_left {p : Char → Bool} (l r : List Char)
    (h : l.dropWhile p ≠ []) : (l ++ r).dropWhile p = l.dropWhile p ++ r := by
  induction l with
  | nil => simp [List.dropWhile] at h
  | cons c cs ih =>
    by_cases hc : p c
    · simp only [List.dropWhile_cons, hc, if_true] at h
      simp only [List.cons_append, List.dropWhile_cons, hc, if_true]
      exact ih h
    · simp [List.dropWhile_cons, hc]

lemma trimList_pad (w1 l w2 : List Char)
    (h1 : ∀ c ∈ w1, isJsWhitespace c = true)
    (h2 : ∀ c ∈ w2, isJsWhitespace c = true) :
    trimList (w1 ++ (l ++ w2)) = trimList l := by
  unfold trimList
  rw [dropWhile_append_all w1 (l ++ w2) h1]
  by_cases h0 : l.dropWhile isJsWhitespace = []
  · have hall : ∀ c ∈ l, isJsWhitespace c = true := List.dropWhile_eq_nil_iff.mp h0
    rw [dropWhile_append_all l w2 hall, List.dropWhile_eq_nil_iff.mpr h2, h0]
  · rw [dropWhile_append_left l w2 h0, List.reverse_append,
      dropWhile_append_all w2.reverse _ (fun c hc => h2 c (List.mem_reverse.mp hc))]

lemma jsTrim_pad (w1 city w2 : String)
    (h1 : ∀ c ∈ w1.data, isJsWhitespace c = true)
    (h2 : ∀ c ∈ w2.data, isJsWhitespace c = true) :
    jsTrim (w1 ++ city ++ w2) = jsTrim city := by
  unfold jsTrim
  congr 1
  have hd : (w1 ++ city ++ w2).data = w1.data ++ (city.data ++ w2.data) := by
    rw [String.data_append, String.data_append, List.append_assoc]
  rw [hd]
  exact trimList_pad w1.data city.data w2.data h1 h2

lemma pad_ne_empty (w1 city w2 : String) (hc : city ≠ "") : (w1 ++ city ++ w2) ≠ "" := by
  intro h0
  apply hc
  have hd := congrArg String.data h0
  rw [String.data_append, String.data_append] at hd
  simp only [List.append_eq_nil] at hd
  exact (data_nil_iff city).mp hd.1.2

lemma jsSplit_ne_nil (sep : Char) (l : List Char) : jsSplit sep l ≠ [] := by
  induction l with
  | nil => simp [jsSplit]
  | cons c cs ih =>
    by_cases h : c = sep
    · simp [jsSplit, h]
    · cases hs : jsSplit sep cs with
      | nil => exact absurd hs ih
      | cons a as => simp [jsSplit, h, hs]

lemma jsSplit_of_splitFirst_none (sep : Char) (l : List Char)
    (h : splitFirst sep l = none) : jsSplit sep l = [l] := by
  induction l with
  | nil => rfl
  | cons c cs ih =>
    unfold splitFirst at h
    by_cases hc : c = sep
    · simp [hc] at h
    · rw [if_neg hc] at h
      cases h2 : splitFirst sep cs with
      | some p =>
        rw [h2] at h
        simp only [Option.map_some'] at h
        exact Option.noConfusion h
      | none =>
        unfold jsSplit
        rw [if_neg hc, ih h2]
        rfl

lemma jsSplit_of_splitFirst_some (sep : Char) (l a b : List Char)
    (h : splitFirst sep l = some (a, b)) : jsSplit sep l = a :: jsSplit sep b := by
  induction l generalizing a b with
  | nil => simp [splitFirst] at h
  | cons c cs ih =>
    unfold splitFirst at h
    by_cases hc : c = sep
    · rw [if_pos hc] at h
      cases h
      conv_lhs => rw [jsSplit]
      rw [if_pos hc]
    · rw [if_neg hc] at h
      cases h2 : splitFirst sep cs with
      | none =>
        rw [h2] at h
        exact Option.noConfusion h
      | some p =>
        rw [h2] at h
        simp only [Option.map_some'] at h
        cases h
        conv_lhs => rw [jsSplit]
        rw [if_neg hc, ih p.1 p.2 (by rw [h2])]
        rfl

lemma jsSplit_head_eq_firstSegment (sep : Char) (l op : List Char)
    (tail : List (List Char)) (h : jsSplit sep l = op :: tail) :
    op = firstSegment sep l := by
  unfold firstSegment
  cases h2 : splitFirst sep l with
  | none =>
    rw [jsSplit_of_splitFirst_none sep l h2] at h
    cases h
    rfl
  | some p =>
    rw [jsSplit_of_splitFirst_some sep l p.1 p.2 (by rw [h2])] at h
    cases h
    rfl

lemma parseMethod_arg_ne_empty (s : String)
    (hp : parseMethod s = ("weather", "currentWeather")) : s ≠ "" := by
  intro h0
  rw [h0] at hp
  exact absurd hp (by decide)

lemma handleCore_ok_id (provider : JVal → Option JVal) (body : RpcRequest)
    (r : RpcResponse) (h : handleCore provider body = Except.ok r) :
    (∀ i c msg d, r = RpcResponse.err i c msg d → i = idOrNull body.id) ∧
    (∀ i w, r = RpcResponse.ok i w → i = idOrNull body.id) := by
  simp only [handleCore] at h
  repeat' split at h
  all_goals first
  | exact Except.noConfusion h
  | (injection h with h
     subst h
     exact ⟨fun i c msg d hr => by cases hr <;> rfl, fun i w hr => by cases hr <;> rfl⟩)

lemma jsJoinList_map_jstr (sep : String) (descs : List String) :
    jsJoinList sep (descs.map JVal.jstr) = joinStrings sep descs := by
  induction descs with
  | nil => rfl
  | cons d ds ih =>
    cases ds with
    | nil => rfl
    | cons d2 ds2 =>
      show d ++ sep ++ jsJoinList sep (List.map JVal.jstr (d2 :: ds2)) =
        d ++ sep ++ joinStrings sep (d2 :: ds2)
      rw [ih]

/-! ## Claim theorems -/

/-- C1: for every `currentWeather` invocation with a well-formed JSON-RPC
envelope and a truthy city, if the awaited provider call fails for any
reason, the handler returns a SUCCESS envelope whose payload is exactly
`{status: "not available", message: "Weather data is currently not
available"}` with the echoed correlation identifier, and never an error
envelope. -/
theorem currentWeather_unavailable_on_provider_failure
    (provider : JVal → Option JVal) (body : RpcRequest) (s : String) (city : JVal)
    (hrpc : body.jsonrpc = some (JVal.jstr "2.0"))
    (hm : body.method = some (JVal.jstr s))
    (hp : parseMethod s = ("weather", "currentWeather"))
    (hcity : extractCity body.params = some city)
    (ht : truthyV city = true)
    (hfail : provider city = none) :
    handlePost provider body =
      RpcResponse.ok (idOrNull body.id)
        (ResultPayload.statusMessage "not available" "Weather data is currently not available") := by
  have hs := parseMethod_arg_ne_empty s hp
  have h20 : (!truthy (some (JVal.jstr "2.0")) ||
      !strictEqStrOpt (some (JVal.jstr "2.0")) "2.0") = false := rfl
  have hmt : truthy (some (JVal.jstr s)) = true := by simp [truthy, truthyV, hs]
  have hw : strictEqStr (JVal.jstr "weather") "weather" = true := rfl
  have hcw : strictEqStr (JVal.jstr "currentWeather") "currentWeather" = true := rfl
  simp [handlePost, handleCore, hrpc, hm, h20, hmt, resolveMethod, hp, hw, hcw, hcity, ht, hfail]

/-- Witness for C1 at a concrete failing provider and the request
`{jsonrpc: "2.0", id: 1, method: "currentWeather", params: "London"}`. -/
theorem currentWeather_unavailable_on_provider_failure_witness :
    handlePost (fun _ => none)
      ⟨some (JVal.jstr "2.0"), some (JVal.jnum 1), some (JVal.jstr "currentWeather"),
        some (JVal.jstr "London")⟩ =
      RpcResponse.ok (JVal.jnum 1)
        (ResultPayload.statusMessage "not available" "Weather data is currently not available") :=
  currentWeather_unavailable_on_provider_failure (fun _ => none)
    ⟨some (JVal.jstr "2.0"), some (JVal.jnum 1), some (JVal.jstr "currentWeather"),
      some (JVal.jstr "London")⟩ "currentWeather" (JVal.jstr "London")
    rfl rfl (by decide) rfl (by decide) rfl

/-- C2: for every provider success with a well-formed payload, the
normalized output maps each provider field to its fixed output field:
`city` from `location.name`, `country`, `region`, `localtime`;
`temperatureUnit` is the constant `"C"`; `weather` is the comma-joined
`weather_descriptions` list; `weatherIcon` is `weather_icons[0]`; and
`windSpeed`, `windDirection`, `humidity`, `feelsLike`, `uvIndex`,
`visibility`, `precipitation`, `cloudCover`, `pressure` come from the
correspondingly renamed provider fields, so no provider field name leaks
through. -/
theorem normalized_output_shape
    (name country region localtime temperature windSpeed windDir humidity feelslike
      uv vis precip cloud pressure : JVal) (descs : List String) (icons : List JVal) :
    normalizeJson (JVal.jobj [
      ("location", JVal.jobj [("name", name), ("country", country), ("region", region),
        ("localtime", localtime)]),
      ("current", JVal.jobj [("temperature", temperature),
        ("weather_descriptions", JVal.jarr (descs.map JVal.jstr)),
        ("weather_icons", JVal.jarr icons), ("wind_speed", windSpeed),
        ("wind_dir", windDir), ("humidity", humidity), ("feelslike", feelslike),
        ("uv_index", uv), ("visibility", vis), ("precip", precip),
        ("cloudcover", cloud), ("pressure", pressure)])]) =
    Except.ok ⟨some name, some country, some region, some localtime,
      ⟨some temperature, "C", joinStrings ", " descs, icons.head?, some windSpeed,
        some windDir, some humidity, some feelslike, some uv, some vis, some precip,
        some cloud, some pressure⟩⟩ := by
  rw [← jsJoinList_map_jstr ", " descs]
  rfl

/-- C3 counterexample: the whitespace-only city `" "` is empty after
trimming, yet `fetchWeatherData` does not fail with the invalid-input
error: the falsy-city check sees the untrimmed non-empty string, trimming
happens only after the credential check, and an outbound request for the
empty trimmed query is issued (the log is non-empty). -/
theorem fetchWeather_wsCity_not_invalidInput :
    fetchWeatherData "k" " " (fun _ => TransportOutcome.netFail) =
        (Except.error FetchError.transportFailed, [mkApiUrl "k" ""]) ∧
      jsTrim " " = "" ∧
      FetchError.transportFailed ≠ FetchError.invalidInput ∧
      [mkApiUrl "k" ""] ≠ ([] : List String) :=
  ⟨rfl, rfl, by decide, by simp⟩

/-- C3 amended: `fetchWeatherData` fails with the invalid-input error, with
no network call made, exactly when the city is empty BEFORE trimming; a
non-empty city with a non-empty credential always issues exactly one
request, for the URL built from the trimmed, URL-encoded city. -/
theorem fetchWeather_input_validation (key city : String) (t : String → TransportOutcome) :
    (fetchWeatherData key city t = (Except.error FetchError.invalidInput, []) ↔ city = "") ∧
    (key ≠ "" → city ≠ "" →
      (fetchWeatherData key city t).2 = [mkApiUrl key (jsTrim city)]) := by
  constructor
  · constructor
    · intro h
      by_cases hc : city = ""
      · exact hc
      · exfalso
        by_cases hk : key = ""
        · subst hk
          unfold fetchWeatherData at h
          rw [if_neg hc] at h
          simp at h
        · unfold fetchWeatherData at h
          rw [if_neg hc, if_neg hk] at h
          split at h <;> simp at h
    · intro h
      rw [h]
      rfl
  · intro hk hc
    unfold fetchWeatherData
    rw [if_neg hc, if_neg hk]
    split <;> rfl

/-- Witness for C3 amended at the whitespace-only city. -/
theorem fetchWeather_input_validation_witness :
    (fetchWeatherData "k" " " (fun _ => TransportOutcome.netFail)).2 =
      [mkApiUrl "k" (jsTrim " ")] :=
  (fetchWeather_input_validation "k" " " (fun _ => TransportOutcome.netFail)).2
    (by decide) (by decide)

/-- C4 counterexample: on `"a.b.c"` the code resolves to `("a", "b")`,
discarding the text after the second separator, whereas splitting on the
first occurrence would give `("a", "b.c")`; the two resolutions differ. -/
theorem parseMethod_not_splitFirst :
    parseMethod "a.b.c" = ("a", "b") ∧ parseMethodSpec "a.b.c" = ("a", "b.c") ∧
      parseMethod "a.b.c" ≠ parseMethodSpec "a.b.c" :=
  ⟨rfl, rfl, by decide⟩

/-- C4 amended: for every method string containing the separator, the
handler takes as tool the text before the FIRST separator and as operation
the segment between the first separator and the next one (not the whole
remainder); for every method string without a separator it resolves to
tool `"weather"` with the whole string as operation; and
`"currentWeather"` and `"weather.currentWeather"` resolve identically. -/
theorem parseMethod_resolution (m : String) :
    (match splitFirst '.' m.data with
     | none => parseMethod m = ("weather", m)
     | some (t, rest) =>
       parseMethod m = (String.mk t, String.mk (firstSegment '.' rest))) ∧
    parseMethod "currentWeather" = parseMethod "weather.currentWeather" := by
  constructor
  · cases h : splitFirst '.' m.data with
    | none =>
      unfold parseMethod
      rw [jsSplit_of_splitFirst_none '.' m.data h]
    | some p =>
      obtain ⟨t, rest⟩ := p
      dsimp only
      have hsplit := jsSplit_of_splitFirst_some '.' m.data t rest h
      cases hs2 : jsSplit '.' rest with
      | nil => exact absurd hs2 (jsSplit_ne_nil '.' rest)
      | cons op tail =>
        rw [hs2] at hsplit
        unfold parseMethod
        rw [hsplit]
        dsimp only
        rw [← jsSplit_head_eq_firstSegment '.' rest op tail hs2]
  · rfl

/-- C5: if the configured access credential is the empty string,
`fetchWeatherData` fails with the credential-missing error and the request
log is empty, i.e. no outbound network call is made.  The city must itself
pass the preceding falsy-city check, which rejects (also with an empty
log) before the credential is looked at. -/
theorem fetchWeather_credentialMissing (city : String)
    (t : String → TransportOutcome) (hc : city ≠ "") :
    fetchWeatherData "" city t = (Except.error FetchError.credentialMissing, []) := by
  unfold fetchWeatherData
  rw [if_neg hc]
  rfl

/-- Witness for C5 at the city `"London"`. -/
theorem fetchWeather_credentialMissing_witness :
    fetchWeatherData "" "London" (fun _ => TransportOutcome.netFail) =
      (Except.error FetchError.credentialMissing, []) :=
  fetchWeather_credentialMissing "London" (fun _ => TransportOutcome.netFail) (by decide)

/-- C6: for every `currentWeather` invocation whose parameters are missing,
of a non-string non-object shape (`null`, boolean or number), or whose
extracted city is empty in either accepted shape (a plain empty string, or
an object whose `city` attribute is absent or empty), the handler returns
the structured rejection with code -32602 and never raises a fault. -/
theorem currentWeather_invalid_params
    (provider : JVal → Option JVal) (body : RpcRequest) (s : String)
    (hrpc : body.jsonrpc = some (JVal.jstr "2.0"))
    (hm : body.method = some (JVal.jstr s))
    (hp : parseMethod s = ("weather", "currentWeather"))
    (hbad : body.params = none ∨ body.params = some JVal.jnull ∨
      (∃ b, body.params = some (JVal.jbool b)) ∨ (∃ n, body.params = some (JVal.jnum n)) ∨
      body.params = some (JVal.jstr "") ∨
      (∃ fs, body.params = some (JVal.jobj fs) ∧
        (lookupField fs "city" = none ∨ lookupField fs "city" = some (JVal.jstr "")))) :
    handlePost provider body =
      RpcResponse.err (idOrNull body.id) (-32602) "Invalid params"
        "City parameter is required" := by
  have hs := parseMethod_arg_ne_empty s hp
  have h20 : (!truthy (some (JVal.jstr "2.0")) ||
      !strictEqStrOpt (some (JVal.jstr "2.0")) "2.0") = false := rfl
  have hmt : truthy (some (JVal.jstr s)) = true := by simp [truthy, truthyV, hs]
  have hw : strictEqStr (JVal.jstr "weather") "weather" = true := rfl
  have hcw : strictEqStr (JVal.jstr "currentWeather") "currentWeather" = true := rfl
  have hfalsy : extractCity body.params = none ∨
      extractCity body.params = some (JVal.jstr "") := by
    rcases hbad with h | h | ⟨b, h⟩ | ⟨n, h⟩ | h | ⟨fs, h, hcf⟩
    · left; rw [h]; rfl
    · left; rw [h]; rfl
    · left; rw [h]; rfl
    · left; rw [h]; rfl
    · right; rw [h]; rfl
    · rcases hcf with hcf | hcf
      · left; rw [h]; simp [extractCity, hcf]
      · right; rw [h]; simp [extractCity, hcf]
  rcases hfalsy with hc | hc <;>
    simp [handlePost, handleCore, hrpc, hm, h20, hmt, resolveMethod, hp, hw, hcw, hc, truthyV]

/-- Witness for C6 at a request with no params at all. -/
theorem currentWeather_invalid_params_witness :
    handlePost (fun _ => none)
      ⟨some (JVal.jstr "2.0"), some (JVal.jstr "abc"),
        some (JVal.jstr "weather.currentWeather"), none⟩ =
      RpcResponse.err (JVal.jstr "abc") (-32602) "Invalid params"
        "City parameter is required" :=
  currentWeather_invalid_params (fun _ => none)
    ⟨some (JVal.jstr "2.0"), some (JVal.jstr "abc"),
      some (JVal.jstr "weather.currentWeather"), none⟩ "weather.currentWeather"
    rfl rfl (by decide) (Or.inl rfl)

/-- C7 counterexample: an unexpected internal fault during result
normalization (here, the provider resolves with an empty object, so
`data.location.name` raises a `TypeError`) is NOT converted into the
internal-error rejection -32603 — the inner catch converts it into the
`UnavailableResult` success envelope instead. -/
theorem normalization_fault_not_internal_error :
    handlePost (fun _ => some (JVal.jobj []))
        ⟨some (JVal.jstr "2.0"), some (JVal.jnum 1), some (JVal.jstr "currentWeather"),
          some (JVal.jstr "Paris")⟩ =
      RpcResponse.ok (JVal.jnum 1)
        (ResultPayload.statusMessage "not available" "Weather data is currently not available") ∧
    normalizeJson (JVal.jobj []) = Except.error () :=
  ⟨rfl, rfl⟩

/-- C7 amended: unexpected internal faults raised during method resolution
(after a valid envelope) reach the outer catch and become the generic
internal-error rejection -32603 sent with HTTP 500; faults raised inside
the `currentWeather` block — during provider invocation or result
normalization — are caught by the inner catch and become the
`UnavailableResult` success envelope; in neither case does a fault
propagate out of the handler. -/
theorem internal_fault_conversion (provider : JVal → Option JVal) (body : RpcRequest) :
    (∀ v, body.jsonrpc = some (JVal.jstr "2.0") → body.method = some v →
      truthyV v = true → resolveMethod (some v) = Except.error () →
      handlePost provider body =
        RpcResponse.errNoId 500 (-32603) "Internal error" "An unexpected error occurred") ∧
    (∀ s city data, body.jsonrpc = some (JVal.jstr "2.0") →
      body.method = some (JVal.jstr s) → parseMethod s = ("weather", "currentWeather") →
      extractCity body.params = some city → truthyV city = true →
      provider city = some data → normalizeJson data = Except.error () →
      handlePost provider body =
        RpcResponse.ok (idOrNull body.id)
          (ResultPayload.statusMessage "not available"
            "Weather data is currently not available")) := by
  constructor
  · intro v hrpc hm htv hres
    have h20 : (!truthy (some (JVal.jstr "2.0")) ||
        !strictEqStrOpt (some (JVal.jstr "2.0")) "2.0") = false := rfl
    have hmt : truthy (some v) = true := by simp [truthy, htv]
    simp [handlePost, handleCore, hrpc, hm, h20, hmt, hres]
  · intro s city data hrpc hm hp hcity ht hdata hnorm
    have hs := parseMethod_arg_ne_empty s hp
    have h20 : (!truthy (some (JVal.jstr "2.0")) ||
        !strictEqStrOpt (some (JVal.jstr "2.0")) "2.0") = false := rfl
    have hmt : truthy (some (JVal.jstr s)) = true := by simp [truthy, truthyV, hs]
    have hw : strictEqStr (JVal.jstr "weather") "weather" = true := rfl
    have hcw : strictEqStr (JVal.jstr "currentWeather") "currentWeather" = true := rfl
    simp [handlePost, handleCore, hrpc, hm, h20, hmt, resolveMethod, hp, hw, hcw,
      hcity, ht, hdata, hnorm]

/-- Witness for C7 amended: a numeric method value makes `.includes` raise,
and the outer catch answers with the id-less internal-error rejection. -/
theorem internal_fault_conversion_witness :
    handlePost (fun _ => none)
      ⟨some (JVal.jstr "2.0"), some (JVal.jnum 1), some (JVal.jnum 5), none⟩ =
      RpcResponse.errNoId 500 (-32603) "Internal error" "An unexpected error occurred" :=
  (internal_fault_conversion (fun _ => none)
    ⟨some (JVal.jstr "2.0"), some (JVal.jnum 1), some (JVal.jnum 5), none⟩).1
    (JVal.jnum 5) rfl rfl (by decide) rfl

/-- C8 counterexample: a request that supplies the truthy correlation
identifier 7 but hits the internal-error path (non-string method) receives
the id-less HTTP 500 rejection: the -32603 rejection does not echo the
identifier. -/
theorem internal_error_drops_id :
    handlePost (fun _ => none)
        ⟨some (JVal.jstr "2.0"), some (JVal.jnum 7), some (JVal.jnum 5), none⟩ =
      RpcResponse.errNoId 500 (-32603) "Internal error" "An unexpected error occurred" ∧
    truthyV (JVal.jnum 7) = true :=
  ⟨rfl, rfl⟩

/-- C8 amended: every structured rejection envelope the handler returns
(invalid request, method not found, invalid params) echoes the supplied
correlation identifier whenever that identifier is truthy; only the
id-less internal-error response (and falsy identifiers, which `id || null`
replaces by null) escape this. -/
theorem rejection_echoes_id (provider : JVal → Option JVal) (body : RpcRequest)
    (idv : JVal) (hid : body.id = some idv) (ht : truthyV idv = true) :
    ∀ i c msg d, handlePost provider body = RpcResponse.err i c msg d → i = idv := by
  intro i c msg d h
  have hrid : idOrNull body.id = idv := by rw [hid]; simp [idOrNull, ht]
  unfold handlePost at h
  cases hcore : handleCore provider body with
  | error e =>
    rw [hcore] at h
    exact RpcResponse.noConfusion h
  | ok r =>
    rw [hcore] at h
    dsimp only at h
    rw [← hrid]
    exact (handleCore_ok_id provider body r hcore).1 i c msg d h

/-- Witness for C8 amended at a method-not-found rejection with id 7. -/
theorem rejection_echoes_id_witness : JVal.jnum 7 = JVal.jnum 7 :=
  rejection_echoes_id (fun _ => none)
    ⟨some (JVal.jstr "2.0"), some (JVal.jnum 7), some (JVal.jstr "weather.bogus"), none⟩
    (JVal.jnum 7) rfl rfl (JVal.jnum 7) (-32601) "Method not found"
    "Unsupported operation: bogus" rfl

/-- C9: `getWeatherForCity` always returns a value for every city and every
provider outcome: the fetched provider data when `fetchWeatherData`
succeeds, and the `{status: "not available", message: "Weather data is
currently not available"}` sentinel whenever it fails for any reason;
no failure propagates to the caller. -/
theorem getWeatherForCity_total (key city : String) (t : String → TransportOutcome) :
    (∀ d, (fetchWeatherData key city t).1 = Except.ok d →
      getWeatherForCity key city t = LookupResult.weatherData d) ∧
    (∀ e, (fetchWeatherData key city t).1 = Except.error e →
      getWeatherForCity key city t =
        LookupResult.statusMessage "not available" "Weather data is currently not available") := by
  constructor
  · intro d h
    unfold getWeatherForCity
    rw [h]
  · intro e h
    unfold getWeatherForCity
    rw [h]

/-- Witness for C9 at a failing fetch (empty credential). -/
theorem getWeatherForCity_total_witness :
    getWeatherForCity "" "London" (fun _ => TransportOutcome.netFail) =
      LookupResult.statusMessage "not available" "Weather data is currently not available" :=
  (getWeatherForCity_total "" "London" (fun _ => TransportOutcome.netFail)).2
    FetchError.credentialMissing rfl

/-- C10: the outbound behaviour of `fetchWeatherData` is invariant under
surrounding whitespace on a non-empty city: adding leading/trailing JS
whitespace yields the identical requested URL (and the identical overall
result), because the URL is built from the trimmed, URL-encoded city. -/
theorem fetchWeather_whitespace_invariant (key city w1 w2 : String)
    (t : String → TransportOutcome) (hk : key ≠ "") (hc : city ≠ "")
    (h1 : ∀ c ∈ w1.data, isJsWhitespace c = true)
    (h2 : ∀ c ∈ w2.data, isJsWhitespace c = true) :
    fetchWeatherData key (w1 ++ city ++ w2) t = fetchWeatherData key city t := by
  unfold fetchWeatherData
  rw [if_neg (pad_ne_empty w1 city w2 hc), if_neg hc, if_neg hk, if_neg hk,
    jsTrim_pad w1 city w2 h1 h2]

/-- Witness for C10 at `"London"` padded with spaces. -/
theorem fetchWeather_whitespace_invariant_witness :
    fetchWeatherData "k" (" " ++ "London" ++ "  ") (fun _ => TransportOutcome.netFail) =
      fetchWeatherData "k" "London" (fun _ => TransportOutcome.netFail) :=
  fetchWeather_whitespace_invariant "k" "London" " " "  "
    (fun _ => TransportOutcome.netFail) (by decide) (by decide) (by decide) (by decide)

end WeatherMcp
